import Mathlib

/-!
Shallow embedding of the pino-transport-rotating repository.

The repository contains three near-duplicate implementations of the same
transport:
  * `src/index.ts` (the rollup build input), with an inline path generator
    and destructuring defaults including `size = '10M'`;
  * a variant exporting `pad` and `generator(time, index, dir, filename)`
    with the calendar-date naming scheme `{filename}-{YYYY-MM-DD}.{index}.log`
    and `size = '100K'` (file `part_000`);
  * a variant with a compact-timestamp generator, a `compressFile` helper,
    and a `rotated`-event compression handler guarded by a `compressedFiles`
    set (file `part_001`).

Pure computations (path generation, number formatting, option defaulting)
are embedded as Lean functions.  Stateful code (the filesystem touched by
`compressFile`, the event-loop interleaving of the `rotated` handler, the
stream pipeline) is embedded as explicit state passing: the filesystem is a
map from paths to entries, the async handler is a small-step machine whose
atomic segments are the code between `await` suspension points, and the
pipeline is a fold over the incoming records that stops when a transform
callback receives an error (Node stream semantics: an error passed to the
transform callback destroys the pipeline).
-/

/-- Decimal digit character, as produced by JavaScript `Number.prototype.toString`
for a single digit. -/
def digitChar : Nat → Char
  | 0 => '0'
  | 1 => '1'
  | 2 => '2'
  | 3 => '3'
  | 4 => '4'
  | 5 => '5'
  | 6 => '6'
  | 7 => '7'
  | 8 => '8'
  | 9 => '9'
  | _ => '?'

/-- Numeric value of a digit character (inverse of `digitChar` on digits). -/
def digitVal (c : Char) : Nat := c.toNat - 48

/-- Fuel-indexed decimal rendering of a natural number, most significant digit
first.  With fuel larger than the number this is exactly the JavaScript
`num.toString()` digit sequence. -/
def natDigitsAux : Nat → Nat → List Char
  | 0, _ => []
  | fuel + 1, n =>
    if n < 10 then [digitChar n]
    else natDigitsAux fuel (n / 10) ++ [digitChar (n % 10)]

/-- Digit sequence of the JavaScript rendering `num.toString()` of a natural
number. -/
def jsNatReprCore (n : Nat) : List Char := natDigitsAux (n + 1) n

/-- Embedding of JavaScript `num.toString()` for natural numbers. -/
def jsNatRepr (n : Nat) : String := ⟨jsNatReprCore n⟩

/-- Value of a digit sequence read back as a decimal number. -/
def digitsVal (l : List Char) : Nat :=
  l.foldl (fun acc c => acc * 10 + digitVal c) 0

/-- Embedding of JavaScript `String.prototype.padStart(w, '0')` on the digit
list: prepend zeros until the length is at least `w`. -/
def padZeroCore (w : Nat) (l : List Char) : List Char :=
  List.replicate (w - l.length) '0' ++ l

/-- Embedding of `pad` from the source: `num.toString().padStart(2, '0')`. -/
def pad (n : Nat) : String := ⟨padZeroCore 2 (jsNatReprCore n)⟩

/-- Embedding of `node:path` `join(dir, name)` for a normalized directory
path (the only way the repository calls it). -/
def pathJoin (dir name : String) : String := dir ++ "/" ++ name

/-- Calendar instant as exposed by a JavaScript `Date`: `month0` is the
0-based `getMonth()`, `day` is `getDate()` (1..31); the time-of-day fields
are used only by the compact-timestamp generator. -/
structure JsDate where
  year : Nat
  month0 : Nat
  day : Nat
  hour : Nat
  minute : Nat
  second : Nat

/-- Date token `YYYY-MM-DD` built by the exported generator:
`getFullYear()-pad(getMonth()+1)-pad(getDate())`. -/
def dateToken (t : JsDate) : String :=
  jsNatRepr t.year ++ "-" ++ pad (t.month0 + 1) ++ "-" ++ pad t.day

/-- Rendering of the `index` template argument: `number | undefined`
interpolated by a JavaScript template literal. -/
def indexStr : Option Nat → String
  | none => "undefined"
  | some n => jsNatRepr n

/-- Embedding of the exported `generator(time, index, dir, filename)`
(calendar-date naming variant): null time gives `{dir}/{filename}.log`,
otherwise `{dir}/{filename}-{YYYY-MM-DD}.{index}.log`. -/
def generator (time : Option JsDate) (index : Option Nat) (dir filename : String) : String :=
  match time with
  | none => pathJoin dir (filename ++ ".log")
  | some t =>
    pathJoin dir (filename ++ "-" ++ dateToken t ++ "." ++ indexStr index ++ ".log")

/-- Embedding of the inline generator of `src/index.ts`: the null-time branch
returns `path.join(dir, 'app.log')` with a hardcoded base name, ignoring the
configured `filename`. -/
def generatorIndexTs (time : Option JsDate) (index : Option Nat) (dir filename : String) : String :=
  match time with
  | none => pathJoin dir "app.log"
  | some t =>
    pathJoin dir (filename ++ "-" ++ dateToken t ++ "." ++ indexStr index ++ ".log")

/-- Compact timestamp `YYYYMMDDhhmmss` produced by
`toISOString().replace(/[-:T]/g, '').split('.')[0]` (UTC fields; ISO years
are rendered with four digits for years up to 9999). -/
def compactTimestamp (t : JsDate) : String :=
  ⟨padZeroCore 4 (jsNatReprCore t.year) ++ padZeroCore 2 (jsNatReprCore (t.month0 + 1)) ++
    padZeroCore 2 (jsNatReprCore t.day) ++ padZeroCore 2 (jsNatReprCore t.hour) ++
    padZeroCore 2 (jsNatReprCore t.minute) ++ padZeroCore 2 (jsNatReprCore t.second)⟩

/-- Embedding of the compact-timestamp `generator(time, dir, filename)` of the
compressing variant: null time gives `{dir}/{filename}.log`, otherwise
`{dir}/{filename}-{YYYYMMDDhhmmss}.log`. -/
def generatorCompact (time : Option JsDate) (dir filename : String) : String :=
  match time with
  | none => pathJoin dir (filename ++ ".log")
  | some t => pathJoin dir (filename ++ "-" ++ compactTimestamp t ++ ".log")

/-- Options object passed to the transport factory; `none` models an absent
(JavaScript `undefined`) property. -/
structure TransportOptions where
  dir : Option String := none
  filename : Option String := none
  enabled : Option Bool := none
  size : Option String := none
  interval : Option String := none
  compress : Option Bool := none
  immutable : Option Bool := none

/-- JavaScript falsiness of the destructured `dir` value: `undefined` and the
empty string are falsy, every other string is truthy. -/
def dirFalsy : Option String → Bool
  | none => true
  | some s => s = ""

/-- Side effects the factory can perform before returning or throwing. -/
inductive ConstructEffect where
  | createStream (dir filename size interval : String) (immutable : Bool)
deriving DecidableEq, Repr

/-- Value produced by a successful construction: either the transparent
pass-through returned on the disabled branch, or the rotating transport. -/
inductive Transport where
  | passthrough
  | rotating (dir filename size interval : String) (immutable compress : Bool)
deriving DecidableEq, Repr

/-- Result of running the factory: a returned transport or a thrown error,
each together with the effects performed before that point, in order. -/
inductive ConstructResult where
  | ok (t : Transport) (effects : List ConstructEffect)
  | thrown (msg : String) (effects : List ConstructEffect)
deriving DecidableEq, Repr

/-- Embedding of `pinoTransportRotatingFile` (compressing variant): apply the
destructuring defaults (`filename = 'app'`, `enabled = true`, `size = '100K'`,
`interval = '1d'`, `compress = true`, `immutable = true`; `dir` has no
default), return the pass-through transport when disabled, throw
`Missing required option: dir` when `dir` is falsy, and otherwise create the
rotating stream. -/
def pinoTransportRotatingFile (o : TransportOptions) : ConstructResult :=
  let filename := o.filename.getD "app"
  let enabled := o.enabled.getD true
  let size := o.size.getD "100K"
  let interval := o.interval.getD "1d"
  let compress := o.compress.getD true
  let immutable := o.immutable.getD true
  if !enabled then
    ConstructResult.ok Transport.passthrough []
  else if dirFalsy o.dir then
    ConstructResult.thrown "Missing required option: dir" []
  else
    let dir := o.dir.getD ""
    ConstructResult.ok
      (Transport.rotating dir filename size interval immutable compress)
      [ConstructEffect.createStream dir filename size interval immutable]

/-- Embedding of `pinoTransportRotatingFile` from `src/index.ts`, whose only
behavioural differences in construction are the destructuring defaults
`dir = ''` and `size = '10M'` (its `compress` option is the string `'gzip'`
and does not reach this model's effects). -/
def pinoTransportRotatingFileIndexTs (o : TransportOptions) : ConstructResult :=
  let dir := o.dir.getD ""
  let filename := o.filename.getD "app"
  let enabled := o.enabled.getD true
  let size := o.size.getD "10M"
  let interval := o.interval.getD "1d"
  let immutable := o.immutable.getD true
  if !enabled then
    ConstructResult.ok Transport.passthrough []
  else if dir = "" then
    ConstructResult.thrown "Missing required option: dir" []
  else
    ConstructResult.ok
      (Transport.rotating dir filename size interval immutable true)
      [ConstructEffect.createStream dir filename size interval immutable]

/-- Submitting records to a constructed transport: the pass-through transport
returned on the disabled branch is `build((source) => source)`, which forwards
every record unchanged and touches no file; the rotating transport writes into
the active file opened at the generator's null-time path.  The result pairs
the records seen downstream with the list of file paths created. -/
def transportWrite (t : Transport) (records : List String) : List String × List String :=
  match t with
  | Transport.passthrough => (records, [])
  | Transport.rotating dir filename _ _ _ _ =>
    (records, [pathJoin dir (filename ++ ".log")])

/-- Filesystem entry: a regular file with its content, or a directory. -/
inductive FsEntry where
  | file (content : String)
  | dir
deriving DecidableEq, Repr

/-- Filesystem state: a map from paths to entries (`none` = path absent),
modelling the POSIX-like primitives the compressor uses. -/
def Fs : Type := String → Option FsEntry

/-- Filesystem update: set (or remove, with `none`) the entry at a path. -/
def fsSet (fs : Fs) (p : String) (v : Option FsEntry) : Fs :=
  fun q => if q = p then v else fs q

/-- Outcome of the `pipelineAsync(createReadStream, createGzip,
createWriteStream)` call, which is external I/O: it either succeeds, or fails
after having written some partial data to the destination (the write stream
creates the destination file as soon as it opens). -/
inductive GzipPipeOutcome where
  | success
  | fail (written : String)
deriving DecidableEq, Repr

/-- Diagnostics the compressor emits on its console channel. -/
inductive CompressLog where
  | warnNoExist (src : String)
  | warnIsDir (src : String)
  | errorCompress (src : String)
  | errorNoDest (dest : String)
deriving DecidableEq, Repr

/-- Result of one `compressFile` run: the filesystem afterwards and the
diagnostics emitted.  The function always returns normally (every stage is
inside its `try`/`catch`), so there is no thrown-error case. -/
structure CompressResult where
  fs : Fs
  logs : List CompressLog

/-- Embedding of `compressFile(src, dest)`: skip with a warning when the
source is missing or a directory; otherwise stream-compress into `dest`; on
pipeline success, check that `dest` exists and unlink `src`; on pipeline
failure, the `catch` block only logs the error, leaving whatever partial
`dest` the write stream produced in place.  `comp` is the external gzip
encoding; `outcome` resolves the external I/O of the gzip pipeline. -/
def compressFile (comp : String → String) (outcome : GzipPipeOutcome)
    (fs : Fs) (src dest : String) : CompressResult :=
  match fs src with
  | none => { fs := fs, logs := [CompressLog.warnNoExist src] }
  | some FsEntry.dir => { fs := fs, logs := [CompressLog.warnIsDir src] }
  | some (FsEntry.file c) =>
    match outcome with
    | GzipPipeOutcome.fail written =>
      { fs := fsSet fs dest (some (FsEntry.file written)),
        logs := [CompressLog.errorCompress src] }
    | GzipPipeOutcome.success =>
      let fs1 := fsSet fs dest (some (FsEntry.file (comp c)))
      match fs1 dest with
      | some _ => { fs := fsSet fs1 src none, logs := [] }
      | none => { fs := fs1, logs := [CompressLog.errorNoDest dest] }

/-- Program counter of one invocation of the async `rotated` handler, whose
atomic segments are the code between `await` suspension points:
0 = about to run the `compressedFiles.has` check and start `await stat`;
1 = `stat` resolved, about to test `isFile()` and start `await compressFile`;
2 = `compressFile` resolved, about to run `compressedFiles.add`;
3 = handler finished. -/
def RotTask : Type := String × Nat

/-- State of the compression subsystem: the `compressedFiles` ledger, the
`compressFile` invocations so far (in order), and the pending handler
invocations. -/
structure RotState where
  ledger : List String
  attempts : List String
  tasks : List RotTask

/-- Replace the program counter of task `i`. -/
def setTaskPc (tasks : List RotTask) (i : Nat) (pc : Nat) : List RotTask :=
  match tasks.get? i with
  | none => tasks
  | some (p, _) => tasks.set i (p, pc)

/-- One atomic segment of the `rotated` handler, as scheduled by the
single-threaded event loop.  `isFile p` resolves the external `stat` call
(false also covers the thrown-`stat`/directory cases, which both end the
handler with a diagnostic).  Control flow follows the source: the ledger
membership check runs first; the ledger insertion runs only after
`compressFile` has resolved. -/
def rotStep (isFile : String → Bool) (s : RotState) (i : Nat) : RotState :=
  match s.tasks.get? i with
  | none => s
  | some (p, pc) =>
    if pc = 0 then
      if s.ledger.contains p then { s with tasks := setTaskPc s.tasks i 3 }
      else { s with tasks := setTaskPc s.tasks i 1 }
    else if pc = 1 then
      if isFile p then
        { s with attempts := s.attempts ++ [p], tasks := setTaskPc s.tasks i 2 }
      else { s with tasks := setTaskPc s.tasks i 3 }
    else if pc = 2 then
      { s with ledger := s.ledger ++ [p], tasks := setTaskPc s.tasks i 3 }
    else s

/-- Run the handler segments in the order chosen by the event-loop schedule. -/
def rotRun (isFile : String → Bool) (sched : List Nat) (s : RotState) : RotState :=
  sched.foldl (rotStep isFile) s

/-- Initial compression-subsystem state after the `rotated` event has been
delivered once for each path in `paths` (one pending handler invocation per
delivery, none started yet), with an empty ledger. -/
def rotInit (paths : List String) : RotState :=
  { ledger := [], attempts := [], tasks := paths.map (fun p => (p, 0)) }

/-- Value thrown by the rendering function: a JavaScript `Error` carrying a
message, or a non-`Error` value carrying its `String(...)` conversion. -/
inductive JsThrown where
  | err (msg : String)
  | nonError (strRep : String)
deriving DecidableEq, Repr

/-- Embedding of the `prettyStream` transform body: render the chunk; on a
thrown value, pass an `Error` to the callback — an existing `Error` as is, any
other value wrapped via `new Error(String(error) || 'An unknown error
occurred')`.  The result is what reaches the stream callback: the rendered
text, or the message of the `Error` handed to it. -/
def prettyTransform (render : String → Except JsThrown String) (chunk : String) :
    Except String String :=
  match render chunk with
  | Except.ok s => Except.ok s
  | Except.error (JsThrown.err m) => Except.error m
  | Except.error (JsThrown.nonError r) =>
    Except.error (if r = "" then "An unknown error occurred" else r)

/-- Observable outcome of one pipeline run: the chunks written to the
rotating stream, and the error (if any) delivered to the `pipeline` callback
that logs `Failed to write log in transport`. -/
structure PipelineRun where
  written : List String
  errorLogged : Option String
deriving DecidableEq, Repr

/-- Drive the pipeline over the incoming records.  Per Node stream semantics,
a transform callback invoked with an error destroys the pipeline: the error
reaches the `pipeline` completion callback (which logs it, so the host
process does not crash) and no further chunk is processed. -/
def runPipelineFrom (render : String → Except JsThrown String)
    (acc : List String) : List String → PipelineRun
  | [] => { written := acc, errorLogged := none }
  | c :: rest =>
    match prettyTransform render c with
    | Except.ok s => runPipelineFrom render (acc ++ [s]) rest
    | Except.error m => { written := acc, errorLogged := some m }

/-- Pipeline run started with nothing written yet. -/
def runPipeline (render : String → Except JsThrown String) (chunks : List String) :
    PipelineRun :=
  runPipelineFrom render [] chunks

/-- Message of the `Error` object the transform callback receives for a
thrown value (matching the `instanceof Error` branch of the source). -/
def thrownMessage : JsThrown → String
  | JsThrown.err m => m
  | JsThrown.nonError r => if r = "" then "An unknown error occurred" else r

/-- Sample filesystem with a single rotated log file, used as concrete input
for the compressor results. -/
def sampleFs : Fs :=
  fun q => if q = "logs/a.log" then some (FsEntry.file "hello") else none

/-- Compressor run on the sample filesystem whose gzip pipeline fails after
writing partial output. -/
def sampleFailRes : CompressResult :=
  compressFile (fun c => c) (GzipPipeOutcome.fail "par") sampleFs
    "logs/a.log" "logs/a.log.gz"

/-- Rendering function that fails (throwing `Error('boom')`) on the record
`"bad"` and renders every other record unchanged. -/
def sampleRender : String → Except JsThrown String :=
  fun c => if c = "bad" then Except.error (JsThrown.err "boom") else Except.ok c

/-- Content of the `data` field of an appended string. -/
theorem data_append_eq (a b : String) : (a ++ b).data = a.data ++ b.data := by
  cases a
  cases b
  rfl

/-- Underlying digit list of `jsNatRepr`. -/
theorem jsNatRepr_data (n : Nat) : (jsNatRepr n).data = jsNatReprCore n := rfl

/-- Underlying digit list of `pad`. -/
theorem pad_data (n : Nat) : (pad n).data = padZeroCore 2 (jsNatReprCore n) := rfl

/-- Value of a digit character produced by `digitChar`. -/
theorem digitVal_digitChar : ∀ d, d < 10 → digitVal (digitChar d) = d := by decide

/-- Reading a digit appended on the right multiplies the value by ten. -/
theorem digitsVal_append_digit (l : List Char) (c : Char) :
    digitsVal (l ++ [c]) = digitsVal l * 10 + digitVal c := by
  simp [digitsVal, List.foldl_append]

/-- Reading back the fuel-indexed decimal rendering recovers the number. -/
theorem digitsVal_natDigitsAux : ∀ fuel n, n < fuel → digitsVal (natDigitsAux fuel n) = n := by
  intro fuel
  induction fuel with
  | zero => intro n h; omega
  | succ fuel ih =>
    intro n h
    by_cases h10 : n < 10
    · have hv := digitVal_digitChar n h10
      simp [natDigitsAux, h10, digitsVal, hv]
    · have hrec : n / 10 < fuel := by omega
      have hd := digitVal_digitChar (n % 10) (by omega)
      simp only [natDigitsAux, h10, if_false, digitsVal_append_digit, ih (n / 10) hrec, hd]
      omega

/-- Reading back the JavaScript decimal rendering recovers the number. -/
theorem digitsVal_jsNatReprCore (n : Nat) : digitsVal (jsNatReprCore n) = n :=
  digitsVal_natDigitsAux (n + 1) n (Nat.lt_succ_self n)

/-- JavaScript decimal rendering is injective. -/
theorem jsNatReprCore_injective {a b : Nat} (h : jsNatReprCore a = jsNatReprCore b) : a = b := by
  have ha := digitsVal_jsNatReprCore a
  have hb := digitsVal_jsNatReprCore b
  rw [h] at ha
  omega

/-- Leading zero characters do not change the value read back. -/
theorem digitsVal_replicate_zero : ∀ k (l : List Char),
    digitsVal (List.replicate k '0' ++ l) = digitsVal l := by
  intro k
  induction k with
  | zero => intro l; rfl
  | succ k ih =>
    intro l
    have h0 : digitVal '0' = 0 := by decide
    simp only [List.replicate, List.cons_append, digitsVal, List.foldl, h0]
    exact ih l

/-- Reading back a zero-padded rendering recovers the number. -/
theorem digitsVal_padZeroCore (w n : Nat) : digitsVal (padZeroCore w (jsNatReprCore n)) = n := by
  unfold padZeroCore
  rw [digitsVal_replicate_zero]
  exact digitsVal_jsNatReprCore n

/-- Zero-padding to width two is injective. -/
theorem padZeroCore_injective {a b : Nat}
    (h : padZeroCore 2 (jsNatReprCore a) = padZeroCore 2 (jsNatReprCore b)) : a = b := by
  have ha := digitsVal_padZeroCore 2 a
  have hb := digitsVal_padZeroCore 2 b
  rw [h] at ha
  omega

/-- Numbers below one hundred render as exactly two characters after padding. -/
theorem padZeroCore_length_two : ∀ n, n < 100 → (padZeroCore 2 (jsNatReprCore n)).length = 2 := by
  decide

/-- Appending the gzip suffix never returns the same path. -/
theorem self_ne_append_gz (s : String) : s ≠ s ++ ".gz" := by
  intro h
  have hl := congrArg String.length h
  rw [String.length_append] at hl
  have h3 : (".gz" : String).length = 3 := rfl
  omega

/-- C1: for every valid directory and base filename, the exported naming
function applied to a null time returns `{dir}/{filename}.log` with the
configured base filename; the inline generator of `src/index.ts`, however,
returns the hardcoded `{dir}/app.log` on that branch, so with
`filename = "error"` it yields `logs/app.log` instead of the claimed
`logs/error.log`. -/
theorem C1_null_time_uses_configured_filename :
    (∀ (i : Option Nat) (dir f : String),
      generator none i dir f = dir ++ "/" ++ (f ++ ".log")) ∧
    (∀ (dir f : String),
      generatorCompact none dir f = dir ++ "/" ++ (f ++ ".log")) ∧
    generatorIndexTs none none "logs" "error" = "logs/app.log" ∧
    ("logs/app.log" : String) ≠ "logs/error.log" := by
  refine ⟨fun i dir f => rfl, fun dir f => rfl, by decide, by decide⟩

/-- C6: with the transport enabled and `dir` absent or empty, construction
throws `Missing required option: dir` having performed no effect: no stream
or file is created before the throw. -/
theorem C6_missing_dir_fatal_at_construction (o : TransportOptions)
    (hen : o.enabled.getD true = true) (hdir : dirFalsy o.dir = true) :
    pinoTransportRotatingFile o =
      ConstructResult.thrown "Missing required option: dir" [] := by
  simp [pinoTransportRotatingFile, hen, hdir]

/-- Witness for C6 at the concrete options `{ enabled: true }` with `dir`
absent. -/
theorem C6_missing_dir_fatal_at_construction_witness :
    pinoTransportRotatingFile { enabled := some true } =
      ConstructResult.thrown "Missing required option: dir" [] :=
  C6_missing_dir_fatal_at_construction { enabled := some true } rfl rfl

/-- C7: with `enabled = false` the factory returns the transparent
pass-through transport having performed no effect, and submitting any
records to that transport forwards them unchanged and creates no file. -/
theorem C7_disabled_no_filesystem_access (o : TransportOptions)
    (hen : o.enabled = some false) :
    pinoTransportRotatingFile o = ConstructResult.ok Transport.passthrough [] ∧
    ∀ records : List String,
      transportWrite Transport.passthrough records = (records, []) := by
  refine ⟨?_, fun records => rfl⟩
  simp [pinoTransportRotatingFile, hen]

/-- Witness for C7 at the concrete options `{ enabled: false }` and two
submitted records. -/
theorem C7_disabled_no_filesystem_access_witness :
    pinoTransportRotatingFile { enabled := some false } =
      ConstructResult.ok Transport.passthrough [] ∧
    transportWrite Transport.passthrough ["r1", "r2"] = (["r1", "r2"], []) :=
  ⟨(C7_disabled_no_filesystem_access { enabled := some false } rfl).1,
    (C7_disabled_no_filesystem_access { enabled := some false } rfl).2 ["r1", "r2"]⟩

/-- C8: with `size` omitted, the `src/index.ts` factory passes the default
`'10M'` to the created stream, while the compressing variant (matching the
documented default) passes `'100K'`; the two defaults differ, refuting the
claim for `src/index.ts`. -/
theorem C8_default_size_mismatch :
    pinoTransportRotatingFileIndexTs { dir := some "logs" } =
      ConstructResult.ok (Transport.rotating "logs" "app" "10M" "1d" true true)
        [ConstructEffect.createStream "logs" "app" "10M" "1d" true] ∧
    pinoTransportRotatingFile { dir := some "logs" } =
      ConstructResult.ok (Transport.rotating "logs" "app" "100K" "1d" true true)
        [ConstructEffect.createStream "logs" "app" "100K" "1d" true] ∧
    ("10M" : String) ≠ "100K" := by
  refine ⟨by decide, by decide, by decide⟩

/-- C10: with `enabled = false` construction succeeds and returns the
pass-through transport even though `dir` is absent or empty, while the same
options with `enabled = true` throw the missing-`dir` error: the disabled
branch returns before the `dir` check. -/
theorem C10_disabled_skips_dir_check (o : TransportOptions)
    (hen : o.enabled = some false) (hdir : dirFalsy o.dir = true) :
    pinoTransportRotatingFile o = ConstructResult.ok Transport.passthrough [] ∧
    pinoTransportRotatingFile { o with enabled := some true } =
      ConstructResult.thrown "Missing required option: dir" [] := by
  constructor
  · simp [pinoTransportRotatingFile, hen]
  · simp [pinoTransportRotatingFile, hdir]

/-- Witness for C10 at the concrete options `{ enabled: false, dir: '' }`. -/
theorem C10_disabled_skips_dir_check_witness :
    pinoTransportRotatingFile { enabled := some false, dir := some "" } =
      ConstructResult.ok Transport.passthrough [] ∧
    pinoTransportRotatingFile { enabled := some true, dir := some "" } =
      ConstructResult.thrown "Missing required option: dir" [] :=
  C10_disabled_skips_dir_check { enabled := some false, dir := some "" } rfl rfl

/-- C3 counterexample: on the sample filesystem, a gzip pipeline failure that
leaves partial output behind yields a state where the original is intact and
the error is reported, but the partial `.gz` file is still present — the
claim that no partial `.gz` output remains is false at this input. -/
theorem C3_partial_gz_counterexample :
    sampleFailRes.fs "logs/a.log" = some (FsEntry.file "hello") ∧
    sampleFailRes.logs = [CompressLog.errorCompress "logs/a.log"] ∧
    sampleFailRes.fs "logs/a.log.gz" = some (FsEntry.file "par") ∧
    sampleFailRes.fs "logs/a.log.gz" ≠ none := by
  refine ⟨by decide, by decide, by decide, by decide⟩

/-- C3 amended: when the gzip pipeline fails, the original file is left
intact and the failure is reported without terminating the pipeline (the
handler returns normally after logging), but any partial `.gz` output the
write stream produced remains on disk — the code never deletes it. -/
theorem C3_failure_keeps_original_but_partial_gz_remains
    (comp : String → String) (written : String) (fs : Fs) (src dest c : String)
    (hsrc : fs src = some (FsEntry.file c)) (hne : src ≠ dest) :
    (compressFile comp (GzipPipeOutcome.fail written) fs src dest).fs src =
      some (FsEntry.file c) ∧
    (compressFile comp (GzipPipeOutcome.fail written) fs src dest).fs dest =
      some (FsEntry.file written) ∧
    (compressFile comp (GzipPipeOutcome.fail written) fs src dest).logs =
      [CompressLog.errorCompress src] := by
  simp [compressFile, hsrc, fsSet, hne]

/-- Witness for the amended C3 on the sample filesystem. -/
theorem C3_failure_keeps_original_but_partial_gz_remains_witness :
    (compressFile (fun c => c) (GzipPipeOutcome.fail "par") sampleFs
      "logs/a.log" "logs/a.log.gz").fs "logs/a.log" = some (FsEntry.file "hello") ∧
    (compressFile (fun c => c) (GzipPipeOutcome.fail "par") sampleFs
      "logs/a.log" "logs/a.log.gz").fs "logs/a.log.gz" = some (FsEntry.file "par") ∧
    (compressFile (fun c => c) (GzipPipeOutcome.fail "par") sampleFs
      "logs/a.log" "logs/a.log.gz").logs = [CompressLog.errorCompress "logs/a.log"] :=
  C3_failure_keeps_original_but_partial_gz_remains (fun c => c) "par" sampleFs
    "logs/a.log" "logs/a.log.gz" "hello" (by decide) (by decide)

/-- C4: when the gzip pipeline succeeds on a regular source file, the
original file no longer exists, the `.gz` sibling exists holding the
compressed content, and decompressing that content with any decoder
inverse to the compressor recovers the original content. -/
theorem C4_success_removes_original_and_creates_gz
    (comp decomp : String → String) (hcodec : ∀ x, decomp (comp x) = x)
    (fs : Fs) (src c : String) (hsrc : fs src = some (FsEntry.file c)) :
    (compressFile comp GzipPipeOutcome.success fs src (src ++ ".gz")).fs src = none ∧
    (compressFile comp GzipPipeOutcome.success fs src (src ++ ".gz")).fs (src ++ ".gz") =
      some (FsEntry.file (comp c)) ∧
    decomp (comp c) = c := by
  have h1 := self_ne_append_gz src
  have h2 : src ++ ".gz" ≠ src := h1.symm
  simp [compressFile, hsrc, fsSet, h1, h2, hcodec]

/-- Witness for C4 on the sample filesystem with the identity codec. -/
theorem C4_success_removes_original_and_creates_gz_witness :
    (compressFile (fun x => x) GzipPipeOutcome.success sampleFs
      "logs/a.log" ("logs/a.log" ++ ".gz")).fs "logs/a.log" = none ∧
    (compressFile (fun x => x) GzipPipeOutcome.success sampleFs
      "logs/a.log" ("logs/a.log" ++ ".gz")).fs ("logs/a.log" ++ ".gz") =
      some (FsEntry.file ((fun x => x) "hello")) ∧
    (fun x => x) ((fun x => x) "hello") = "hello" :=
  C4_success_removes_original_and_creates_gz (fun x => x) (fun x => x)
    (fun x => rfl) sampleFs "logs/a.log" "hello" (by decide)

/-- C2 counterexample: delivering the `rotated` notification twice for the
path `p`, with the duplicate handler interleaved while the first compression
is still in progress (schedule: both handlers pass the ledger check before
either compression finishes), produces two `compressFile` invocations — the
ledger is only updated after compression completes, so the at-most-once
property fails under a concurrent duplicate. -/
theorem C2_duplicate_during_compression_compresses_twice :
    ¬ ((rotRun (fun _ => true) [0, 1, 0, 1] (rotInit ["p", "p"])).attempts.length ≤ 1) ∧
    (rotRun (fun _ => true) [0, 1, 0, 1] (rotInit ["p", "p"])).attempts = ["p", "p"] := by
  refine ⟨by decide, by decide⟩

/-- C2 amended: the path is inserted into the compression ledger only after
its compression completes, not before work starts; hence a duplicate
notification delivered after the first handler has finished causes no second
compression attempt (exactly one attempt in total), while a duplicate
interleaved with an in-progress compression may cause a second attempt. -/
theorem C2_sequential_duplicate_deduplicated (p : String) (isFile : String → Bool)
    (hf : isFile p = true) :
    (rotRun isFile [0, 0, 0, 1, 1, 1] (rotInit [p, p])).attempts = [p] := by
  simp [rotRun, rotInit, rotStep, setTaskPc, hf, List.contains, List.elem]

/-- Witness for the amended C2 at the concrete path `p` with every path a
regular file. -/
theorem C2_sequential_duplicate_deduplicated_witness :
    (rotRun (fun _ => true) [0, 0, 0, 1, 1, 1] (rotInit ["p", "p"])).attempts = ["p"] :=
  C2_sequential_duplicate_deduplicated "p" (fun _ => true) rfl

/-- Error delivered to the stream callback when rendering throws. -/
theorem prettyTransform_error (render : String → Except JsThrown String) (c : String)
    (t : JsThrown) (hc : render c = Except.error t) :
    prettyTransform render c = Except.error (thrownMessage t) := by
  cases t <;> simp [prettyTransform, thrownMessage, hc]

/-- Accumulator of the pipeline driver only prefixes the written output. -/
theorem runPipelineFrom_acc (render : String → Except JsThrown String)
    (l : List String) : ∀ acc : List String,
    runPipelineFrom render acc l =
      { written := acc ++ (runPipeline render l).written,
        errorLogged := (runPipeline render l).errorLogged } := by
  induction l with
  | nil => intro acc; simp [runPipeline, runPipelineFrom]
  | cons c rest ih =>
    intro acc
    cases h : prettyTransform render c with
    | ok s =>
      simp only [runPipeline, runPipelineFrom, h, List.nil_append]
      rw [ih (acc ++ [s]), ih [s]]
      simp
    | error m =>
      simp [runPipeline, runPipelineFrom, h]

/-- C5 counterexample: with a renderer that throws `Error('boom')` on the
record `"bad"`, running the pipeline on `["bad", "good"]` writes nothing and
logs the error `"boom"`: the subsequent record `"good"` is not rendered or
written (the transform callback error destroys the pipeline), and the logged
error carries only the thrown message, not the offending record content. -/
theorem C5_render_error_halts_stream_counterexample :
    runPipeline sampleRender ["bad", "good"] =
      { written := [], errorLogged := some "boom" } ∧
    ("boom" : String) ≠ "bad" := by
  refine ⟨by decide, by decide⟩

/-- C5 amended: a record whose rendering throws is converted into an `Error`
passed to the transform callback; the error reaches the pipeline completion
callback and is logged there (the host process does not crash), but it
carries only the thrown message — it is not tagged with the offending
record — and it destroys the pipeline, so records before the failing one are
written and no record after it is processed. -/
theorem C5_render_error_reported_but_pipeline_destroyed
    (render : String → Except JsThrown String) (pre : List String)
    (c : String) (rest : List String) (t : JsThrown)
    (hpre : ∀ x ∈ pre, ∃ s, render x = Except.ok s)
    (hc : render c = Except.error t) :
    (runPipeline render (pre ++ c :: rest)).errorLogged = some (thrownMessage t) ∧
    (runPipeline render (pre ++ c :: rest)).written.length = pre.length := by
  induction pre with
  | nil =>
    simp [runPipeline, runPipelineFrom, prettyTransform_error render c t hc]
  | cons x xs ih =>
    obtain ⟨s, hs⟩ := hpre x (List.mem_cons_self x xs)
    have hx : prettyTransform render x = Except.ok s := by simp [prettyTransform, hs]
    have ih2 := ih (fun y hy => hpre y (List.mem_cons_of_mem x hy))
    simp only [List.cons_append, runPipeline, runPipelineFrom, hx, List.nil_append,
      List.append_eq]
    rw [runPipelineFrom_acc render (xs ++ c :: rest) [s]]
    simp only [List.length_cons]
    exact ⟨ih2.1, by simp [ih2.2]⟩

/-- Witness for the amended C5: one record before the malformed one, one
after. -/
theorem C5_render_error_reported_but_pipeline_destroyed_witness :
    (runPipeline sampleRender (["first"] ++ "bad" :: ["second"])).errorLogged =
      some "boom" ∧
    (runPipeline sampleRender (["first"] ++ "bad" :: ["second"])).written.length = 1 := by
  have h := C5_render_error_reported_but_pipeline_destroyed sampleRender ["first"]
    "bad" ["second"] (JsThrown.err "boom")
    (by intro x hx; rw [List.mem_singleton] at hx; subst hx; exact ⟨"first", rfl⟩) rfl
  exact ⟨h.1, h.2⟩

/-- C9: for two times in different calendar-day buckets (distinct
year/month/day as seen by the generator), with the same index, directory and
filename, the exported naming function yields distinct paths. -/
theorem C9_distinct_day_buckets_distinct_paths
    (t1 t2 : JsDate) (h1m : t1.month0 < 12) (h1d : t1.day < 32)
    (h2m : t2.month0 < 12) (h2d : t2.day < 32)
    (hb : (t1.year, t1.month0, t1.day) ≠ (t2.year, t2.month0, t2.day))
    (i : Option Nat) (dir f : String) :
    generator (some t1) i dir f ≠ generator (some t2) i dir f := by
  intro h
  apply hb
  have hd : (generator (some t1) i dir f).data = (generator (some t2) i dir f).data :=
    congrArg String.data h
  simp only [generator, pathJoin, dateToken, data_append_eq, jsNatRepr_data, pad_data,
    List.append_assoc] at hd
  have hd1 := List.append_cancel_left hd
  have hd2 := List.append_cancel_left hd1
  have hd3 := List.append_cancel_left hd2
  have hd4 := List.append_cancel_left hd3
  have hlm1 : (padZeroCore 2 (jsNatReprCore (t1.month0 + 1))).length = 2 :=
    padZeroCore_length_two _ (by omega)
  have hlm2 : (padZeroCore 2 (jsNatReprCore (t2.month0 + 1))).length = 2 :=
    padZeroCore_length_two _ (by omega)
  have hld1 : (padZeroCore 2 (jsNatReprCore t1.day)).length = 2 :=
    padZeroCore_length_two _ (by omega)
  have hld2 : (padZeroCore 2 (jsNatReprCore t2.day)).length = 2 :=
    padZeroCore_length_two _ (by omega)
  obtain ⟨hy12, hrest⟩ := List.append_inj' hd4
    (by simp [List.length_append, hlm1, hlm2, hld1, hld2])
  have hyear := jsNatReprCore_injective hy12
  have hrest2 := List.append_cancel_left hrest
  obtain ⟨hm12, hrest3⟩ := List.append_inj hrest2 (hlm1.trans hlm2.symm)
  have hmonth : t1.month0 = t2.month0 := by
    have := padZeroCore_injective hm12
    omega
  have hrest4 := List.append_cancel_left hrest3
  have hd12 := List.append_cancel_right hrest4
  have hday := padZeroCore_injective hd12
  simp [hyear, hmonth, hday]

/-- Witness for C9: January 15 and February 15 of 2024, same index,
directory and filename. -/
theorem C9_distinct_day_buckets_distinct_paths_witness :
    generator (some ⟨2024, 0, 15, 0, 0, 0⟩) (some 1) "logs" "app" ≠
      generator (some ⟨2024, 1, 15, 0, 0, 0⟩) (some 1) "logs" "app" :=
  C9_distinct_day_buckets_distinct_paths ⟨2024, 0, 15, 0, 0, 0⟩ ⟨2024, 1, 15, 0, 0, 0⟩
    (by decide) (by decide) (by decide) (by decide) (by decide) (some 1) "logs" "app"
